import Mathlib

/-!
Shallow embedding of the weather-model data generator
(`generate_weather_data.py`, `weather_generator.py`, `batch_data_generator.py`).

Numeric values that the Python source holds as floats are modelled as `ℚ`
where no transcendental function is involved and as `ℝ` where the seasonal
model's `math.sin` enters.  Calls to the global pseudo-random source are
modelled at the level of their support: each call site reads a dedicated
component of an explicit oracle structure, and bounded distributions
(`random.uniform`, `random.randint`, `random.choice`) are realised by total
functions whose ranges coincide with the support of the corresponding
distribution.  The BigQuery client is external; its interactions are
reflected only as counted effects / input parameters.
-/

namespace WeatherModel

/-- Zero-left-pad the decimal representation of `n` to width `w`,
modelling Python format specifiers such as `03d` and `04d`. -/
def padNum (w : Nat) (n : Nat) : String :=
  let s := toString n
  String.mk (List.replicate (w - s.length) '0') ++ s

/-- One entry of `WeatherDataGenerator.station_templates`: the fixed catalog. -/
structure StationTemplate where
  name : String
  country : String
  state_province : String
  city : String
  lat : ℚ
  lon : ℚ
  elevation : ℚ
  deriving DecidableEq

/-- A generated weather-station row (`generate_weather_stations` output).
Timestamps are modelled as integers (days). -/
structure Station where
  station_id : String
  station_name : String
  location : String
  elevation_meters : ℚ
  country : String
  state_province : String
  city : String
  active : Bool
  created_at : Int
  updated_at : Option Int
  deriving DecidableEq

/-- The deterministic station identifier
`f"WS_\x7btemplate['name'].replace(' ', '_').upper()\x7d_\x7bi + 1:03d\x7d"`:
a pure function of the catalog entry's name and its index. -/
def stationId (name : String) (i : Nat) : String :=
  "WS_" ++ (name.replace " " "_").toUpper ++ "_" ++ padNum 3 (i + 1)

/-- WKT encoding `f"POINT(\x7blon\x7d \x7blat\x7d)"` of a coordinate pair.
Decimal formatting of the numbers is abstracted by `toString`. -/
def mkPointString (lon lat : ℚ) : String :=
  "POINT(" ++ toString lon ++ " " ++ toString lat ++ ")"

/-- Oracle for the random draws made per station in
`generate_weather_stations` (`random.choice` for `active`,
`random.randint` offsets for the timestamps). -/
structure StationRand where
  activeChoice : Nat → Bool
  createdRaw : Nat → Nat
  updatedFlag : Nat → Bool
  updatedRaw : Nat → Nat

/-- `random.randint(a, b)` at support level: `a + raw % (b - a + 1)`,
always a member of `[a, b]`. -/
def randintVal (a b : Nat) (raw : Nat) : Nat :=
  a + raw % (b - a + 1)

/-- `WeatherDataGenerator.generate_weather_stations`: for each index
`i < min num_stations (length templates)` build a station row whose id is
`stationId template.name i`; `active`, `created_at`, `updated_at` come from
the random source (modelled by `o`), `now` is `datetime.now()` in days. -/
def generate_weather_stations (templates : List StationTemplate) (num : Nat)
    (now : Int) (o : StationRand) : List Station :=
  (templates.take num).enum.map (fun p =>
    { station_id := stationId p.2.name p.1
      station_name := p.2.name
      location := mkPointString p.2.lon p.2.lat
      elevation_meters := p.2.elevation
      country := p.2.country
      state_province := p.2.state_province
      city := p.2.city
      active := o.activeChoice p.1
      created_at := now - randintVal 30 365 (o.createdRaw p.1)
      updated_at := if o.updatedFlag p.1
        then some (now - randintVal 1 30 (o.updatedRaw p.1)) else none })

/-- `WeatherDataGenerator._upsert_weather_stations`, partitioning step:
stations whose `station_id` is absent from the persisted id set become the
insert batch, the rest become the update batch. -/
def upsert_weather_stations (stations : List Station) (existing : List String) :
    List Station × List Station :=
  (stations.filter (fun s => !(existing.contains s.station_id)),
   stations.filter (fun s => existing.contains s.station_id))

/-- The four seasons distinguished by `get_seasonal_params`. -/
inductive Season where
  | spring | summer | autumn | winter
  deriving DecidableEq

/-- Result of `get_seasonal_params`.  `base_temp` is real-valued because the
source computes it with `math.sin`. -/
structure SeasonalParams where
  base_temp : ℝ
  season : Season
  temp_variance : ℝ

/-- `WeatherDataGenerator.get_seasonal_params`, as a function of
`day_of_year` (the source derives that integer from the date via
`date.timetuple().tm_yday`). -/
noncomputable def get_seasonal_params (dayOfYear : ℕ) : SeasonalParams :=
  let base : ℝ := 10 + 15 * Real.sin (2 * Real.pi * ((dayOfYear : ℝ) - 80) / 365)
  let season :=
    if 80 ≤ dayOfYear ∧ dayOfYear ≤ 172 then Season.spring
    else if 173 ≤ dayOfYear ∧ dayOfYear ≤ 266 then Season.summer
    else if 267 ≤ dayOfYear ∧ dayOfYear ≤ 355 then Season.autumn
    else Season.winter
  { base_temp := base
    season := season
    temp_variance := if season = Season.spring ∨ season = Season.autumn then 8 else 5 }

/-- The season bands exactly as the specification words them:
`[80,172]=spring, [173,266]=summer, [267,355]=autumn, else winter`.
Stated separately from `get_seasonal_params` so that agreement between the
code's branching and the spec's bands is a theorem, not a definition. -/
def specSeasonBands (dayOfYear : ℕ) : Season :=
  if 80 ≤ dayOfYear ∧ dayOfYear ≤ 172 then Season.spring
  else if 173 ≤ dayOfYear ∧ dayOfYear ≤ 266 then Season.summer
  else if 267 ≤ dayOfYear ∧ dayOfYear ≤ 355 then Season.autumn
  else Season.winter

/-- The 7-member weather-condition enumeration. -/
inductive Condition where
  | sunny | partly_cloudy | cloudy | rainy | stormy | snowy | foggy
  deriving DecidableEq

/-- Parameter envelope of one entry of
`WeatherDataGenerator.weather_conditions`; all table values are integers
in the source. -/
structure ConditionParams where
  temp_lo : Int
  temp_hi : Int
  hum_lo : Int
  hum_hi : Int
  precip_max : Int

/-- The fixed `weather_conditions` table. -/
def weather_conditions : Condition → ConditionParams
  | .sunny => ⟨15, 35, 30, 60, 0⟩
  | .partly_cloudy => ⟨10, 30, 40, 70, 2⟩
  | .cloudy => ⟨5, 25, 50, 80, 5⟩
  | .rainy => ⟨5, 20, 70, 95, 50⟩
  | .stormy => ⟨8, 22, 75, 95, 100⟩
  | .snowy => ⟨-10, 3, 80, 95, 30⟩
  | .foggy => ⟨0, 15, 85, 98, 1⟩

/-- `random.choice(lst)` at support level: select the entry at
`raw % length`, always a member of a nonempty list. -/
def choiceFrom (l : List Condition) (d : Condition) (raw : ℕ) : Condition :=
  l.getD (raw % l.length) d

/-- `WeatherDataGenerator.generate_weather_condition`.  The `season`
argument is accepted but, as in the source body, unused; the random pick
is modelled by `raw`. -/
noncomputable def generate_weather_condition (temp : ℝ) (_season : Season)
    (raw : ℕ) : Condition :=
  if temp < -5 then choiceFrom [.snowy, .cloudy, .foggy] .snowy raw
  else if temp < 5 then choiceFrom [.cloudy, .foggy, .rainy, .partly_cloudy] .cloudy raw
  else if temp < 15 then choiceFrom [.cloudy, .rainy, .partly_cloudy, .sunny] .cloudy raw
  else if temp < 25 then choiceFrom [.sunny, .partly_cloudy, .cloudy] .sunny raw
  else choiceFrom [.sunny, .partly_cloudy] .sunny raw

/-- Split a character list at a separator, keeping empty fields, as
Python `str.split(sep)` does.  (Character-level text functions are used
throughout the parsing embedding because they are structurally recursive
and hence evaluable; `String` is handled through `String.data`.) -/
def splitOnChar (sep : Char) (cs : List Char) : List (List Char) :=
  cs.foldr
    (fun c acc =>
      if c = sep then [] :: acc
      else
        match acc with
        | [] => [[c]]
        | a :: as => (c :: a) :: as)
    [[]]

/-- Fuel-driven replacement of every occurrence of a (nonempty) pattern,
modelling Python `str.replace(old, new)`; fuel is instantiated with the
list length, which suffices for nonempty patterns. -/
def replaceSubFuel (pat repl : List Char) : ℕ → List Char → List Char
  | 0, cs => cs
  | _ + 1, [] => []
  | fuel + 1, c :: rest =>
    if pat.isPrefixOf (c :: rest) && !pat.isEmpty then
      repl ++ replaceSubFuel pat repl fuel (List.drop pat.length (c :: rest))
    else c :: replaceSubFuel pat repl fuel rest

/-- Python `str.replace(old, new)` over character lists. -/
def replaceSub (pat repl cs : List Char) : List Char :=
  replaceSubFuel pat repl cs.length cs

/-- The numeric value of a decimal digit, `none` otherwise. -/
def charDigit (c : Char) : Option ℕ :=
  if '0' ≤ c ∧ c ≤ '9' then some (c.toNat - '0'.toNat) else none

/-- Read a nonempty all-digit character list as a natural number. -/
def digitsToNat : List Char → Option ℕ
  | [] => none
  | cs =>
    cs.foldl
      (fun acc c =>
        match acc, charDigit c with
        | some n, some d => some (n * 10 + d)
        | _, _ => none)
      (some 0)

/-- Decimal parser backing Python `float(...)` on coordinate substrings:
optional sign, integer digits, optional fractional digits.  (Python's
`float` also accepts exponents etc.; the catalog and the claims only need
plain decimals, and every non-decimal string is rejected as `float` would
reject garbage.) -/
def parseDecimal (cs : List Char) : Option ℚ :=
  let core (t : List Char) : Option ℚ :=
    match splitOnChar '.' t with
    | [a] => (digitsToNat a).map (fun n => (n : ℚ))
    | [a, b] =>
      match digitsToNat a, digitsToNat b with
      | some n, some f => some ((n : ℚ) + (f : ℚ) / (10 ^ b.length))
      | _, _ => none
    | _ => none
  match cs with
  | '-' :: rest => (core rest).map (fun q => -q)
  | _ => core cs

/-- Whitespace split mimicking Python `str.split()` (split on blanks,
dropping empty fields). -/
def splitWs (cs : List Char) : List (List Char) :=
  (splitOnChar ' ' cs).filter (fun t => !t.isEmpty)

/-- Read `lon`/`lat` out of the first two fields, as both parsing branches
of the source do; `none` models the raised `ValueError`. -/
def parseCoordParts (parts : List (List Char)) : Option (ℚ × ℚ) :=
  match parts with
  | p0 :: p1 :: _ =>
    match parseDecimal p0, parseDecimal p1 with
    | some lon, some lat => some (lon, lat)
    | _, _ => none
  | _ => none

/-- The coordinate-parsing `try` block of `generate_weather_observations`
(lines 166-182): the `POINT(lon lat)` fast path, then the fallback
`replace`-based path; `none` is the raised-and-caught exception. -/
def parseLocation (s : String) : Option (ℚ × ℚ) :=
  let cs := s.data
  if ("POINT(".data).isPrefixOf cs && cs.getLast? == some ')' then
    parseCoordParts (splitWs ((cs.drop 6).dropLast))
  else
    parseCoordParts (splitWs (replaceSub (")".data) []
      (replaceSub ("POINT(".data) [] cs)))

/-- The coordinates `generate_weather_observations` ends up holding for a
station: the parse result, or the documented defaults `lon=10.0, lat=52.0`
installed by the `except` handler. -/
def stationCoords (s : Station) : ℚ × ℚ :=
  (parseLocation s.location).getD (10, 52)

/-- Python `range(0, stop, step)`.  A zero step raises `ValueError` in
Python (the source hits it only for `observations_per_day > 24`, outside
the documented `max 24`); the embedding returns `[]` there. -/
def pythonRange (stop step : ℕ) : List ℕ :=
  if step = 0 then [] else (List.range ((stop + step - 1) / step)).map (· * step)

/-- The hour slots `range(0, 24, 24 // observations_per_day)` sampled per
station-day. -/
def hourSlots (obsPerDay : ℕ) : List ℕ :=
  pythonRange 24 (24 / obsPerDay)

/-- `random.uniform(a, b)` at support level: `a + (b - a) * fract raw`,
always inside `[a, b)` for `a < b`. -/
noncomputable def uniformR (a b : ℝ) (raw : ℝ) : ℝ :=
  a + (b - a) * Int.fract raw

/-- `random.expovariate(lam)` via its inverse-CDF implementation
`-log(1 - u) / lam`. -/
noncomputable def expovariateR (lam : ℝ) (raw : ℝ) : ℝ :=
  -Real.log (1 - Int.fract raw) / lam

/-- Python `round(x, 1)` idealised over `ℝ` (ties are resolved by `round`
rather than Python's round-half-to-even; no claim depends on tie cases). -/
noncomputable def round10 (x : ℝ) : ℝ :=
  ((round (10 * x) : ℤ) : ℝ) / 10

/-- Python `round(x, 2)`. -/
noncomputable def round100 (x : ℝ) : ℝ :=
  ((round (100 * x) : ℤ) : ℝ) / 100

/-- Oracle for the per-sample draws of the observation synthesizers.
The source draws sequentially from one global `random` instance; the
embedding indexes each call site by station id, date and hour, which
reaches the same support (any combination of outcomes). -/
structure ObsRand where
  skip : String → Int → ℕ → Bool
  gauss : String → Int → ℕ → ℝ
  condChoice : String → Int → ℕ → ℕ
  jitterRaw : String → Int → ℕ → ℝ
  humidityRaw : String → Int → ℕ → ℝ
  pressureGauss : String → Int → ℕ → ℝ
  windGauss : String → Int → ℕ → ℝ
  windDirRaw : String → Int → ℕ → ℝ
  precipRaw : String → Int → ℕ → ℝ
  visibilityRaw : String → Int → ℕ → ℝ
  uuid : String → Int → ℕ → String

/-- One emitted weather-observation row.  The source's single `timestamp`
is kept as the `(date, hour)` pair it is built from. -/
structure Observation where
  observation_id : String
  station_id : String
  date : Int
  hour : ℕ
  location : String
  temperature_celsius : ℝ
  humidity_percent : ℝ
  pressure_hpa : ℝ
  wind_speed_ms : ℝ
  wind_direction_degrees : ℝ
  precipitation_mm : ℝ
  visibility_km : ℝ
  weather_condition : Condition

/-- The clamping step of `generate_weather_observations` (lines 215-218):
a temperature outside the condition's declared range is replaced by the
violated bound plus `random.uniform(-2, 2)` jitter. -/
noncomputable def adjustTemp (temp : ℝ) (c : Condition) (jraw : ℝ) : ℝ :=
  if temp < ((weather_conditions c).temp_lo : ℝ) then
    ((weather_conditions c).temp_lo : ℝ) + uniformR (-2) 2 jraw
  else if temp > ((weather_conditions c).temp_hi : ℝ) then
    ((weather_conditions c).temp_hi : ℝ) + uniformR (-2) 2 jraw
  else temp

/-- The sampled temperature before any clamping: seasonal base, elevation
lapse `-(elevation/1000)*6.5`, diurnal term `5*sin(pi*(hour-6)/12)` and
Gaussian noise `gauss(0, temp_variance)` (modelled as
`temp_variance * standard-draw`). -/
noncomputable def rawTemp (s : Station) (date : Int) (hour : ℕ)
    (doy : Int → ℕ) (o : ObsRand) : ℝ :=
  (get_seasonal_params (doy date)).base_temp
    - s.elevation_meters / 1000 * (6.5 : ℝ)
    + 5 * Real.sin (Real.pi * ((hour : ℝ) - 6) / 12)
    + (get_seasonal_params (doy date)).temp_variance
      * o.gauss s.station_id date hour

/-- The condition classified for one sample. -/
noncomputable def obsCondition (s : Station) (date : Int) (hour : ℕ)
    (doy : Int → ℕ) (o : ObsRand) : Condition :=
  generate_weather_condition (rawTemp s date hour doy o)
    (get_seasonal_params (doy date)).season
    (o.condChoice s.station_id date hour)

/-- The record built for one kept `(station, date, hour)` sample in
`generate_weather_observations` (lines 204-234), clamping included. -/
noncomputable def mkObservation (s : Station) (date : Int) (hour : ℕ)
    (doy : Int → ℕ) (o : ObsRand) : Observation :=
  { observation_id := o.uuid s.station_id date hour
    station_id := s.station_id
    date := date
    hour := hour
    location := s.location
    temperature_celsius := round10 (adjustTemp (rawTemp s date hour doy o)
      (obsCondition s date hour doy o) (o.jitterRaw s.station_id date hour))
    humidity_percent := round10 (uniformR
      ((weather_conditions (obsCondition s date hour doy o)).hum_lo : ℝ)
      ((weather_conditions (obsCondition s date hour doy o)).hum_hi : ℝ)
      (o.humidityRaw s.station_id date hour))
    pressure_hpa := round10 (1013.25 + 15 * o.pressureGauss s.station_id date hour)
    wind_speed_ms := round10 (Real.exp (2 + 0.5 * o.windGauss s.station_id date hour))
    wind_direction_degrees := round10 (uniformR 0 360 (o.windDirRaw s.station_id date hour))
    precipitation_mm := round100 (max 0 (expovariateR
      (5 / max 1 ((weather_conditions (obsCondition s date hour doy o)).precip_max : ℝ))
      (o.precipRaw s.station_id date hour)))
    visibility_km := round10 (uniformR
      (if obsCondition s date hour doy o = .foggy then 0.1 else 5) 50
      (o.visibilityRaw s.station_id date hour))
    weather_condition := obsCondition s date hour doy o }

/-- One day's kept samples for one station: the hour slots, minus the 5%
missing-data skips, each mapped through `mkObservation`.  (The source
parses the station coordinates here — `stationCoords` — but the parse
result flows into no emitted field.) -/
noncomputable def stationDayObservations (s : Station) (date : Int)
    (obsPerDay : ℕ) (doy : Int → ℕ) (o : ObsRand) : List Observation :=
  ((hourSlots obsPerDay).filter (fun h => !(o.skip s.station_id date h))).map
    (fun h => mkObservation s date h doy o)

/-- `WeatherDataGenerator.generate_weather_observations`: every active
station, every day in `[now - days, now)`, then the per-day samples.
`doy` is the calendar's day-of-year map (`timetuple().tm_yday`). -/
noncomputable def generate_weather_observations (stations : List Station)
    (days obsPerDay : ℕ) (now : Int) (doy : Int → ℕ) (o : ObsRand) :
    List Observation :=
  (stations.filter (fun s => s.active)).flatMap (fun s =>
    (List.range days).flatMap (fun k =>
      stationDayObservations s (now - days + k) obsPerDay doy o))

/-- The record built per kept sample in the `historical` code path
(`batch_data_generator.generate_historical_data`, lines 146-171): same
samplers, but NO clamping of the temperature to the condition's range. -/
noncomputable def mkHistObservation (s : Station) (date : Int) (hour : ℕ)
    (doy : Int → ℕ) (o : ObsRand) : Observation :=
  { observation_id := o.uuid s.station_id date hour
    station_id := s.station_id
    date := date
    hour := hour
    location := s.location
    temperature_celsius := round10 (rawTemp s date hour doy o)
    humidity_percent := round10 (uniformR
      ((weather_conditions (obsCondition s date hour doy o)).hum_lo : ℝ)
      ((weather_conditions (obsCondition s date hour doy o)).hum_hi : ℝ)
      (o.humidityRaw s.station_id date hour))
    pressure_hpa := round10 (1013.25 + 15 * o.pressureGauss s.station_id date hour)
    wind_speed_ms := round10 (Real.exp (2 + 0.5 * o.windGauss s.station_id date hour))
    wind_direction_degrees := round10 (uniformR 0 360 (o.windDirRaw s.station_id date hour))
    precipitation_mm := round100 (max 0 (expovariateR
      (5 / max 1 ((weather_conditions (obsCondition s date hour doy o)).precip_max : ℝ))
      (o.precipRaw s.station_id date hour)))
    visibility_km := round10 (uniformR
      (if obsCondition s date hour doy o = .foggy then 0.1 else 5) 50
      (o.visibilityRaw s.station_id date hour))
    weather_condition := obsCondition s date hour doy o }

/-- Result of one `generate_historical_data` run: how many station-list
queries went to the store, the generated rows, and how many append calls
went to the store. -/
structure HistRun where
  stationQueries : ℕ
  observations : List Observation
  appendCalls : ℕ

/-- `batch_data_generator.generate_historical_data`: reject `start >= end`
before the station query, the generation loop and the insert; otherwise
query the stations (supplied here as the store's response `storeStations`),
generate `end - start` days of unclamped observations for the active
stations, and append them. -/
noncomputable def generate_historical_data (startD endD : Int)
    (storeStations : List Station) (obsPerDay : ℕ) (doy : Int → ℕ)
    (o : ObsRand) : HistRun :=
  if endD ≤ startD then ⟨0, [], 0⟩
  else
    let days := (endD - startD).toNat
    let obs := (storeStations.filter (fun s => s.active)).flatMap (fun s =>
      (List.range days).flatMap (fun k =>
        ((hourSlots obsPerDay).filter
            (fun h => !(o.skip s.station_id (startD + k) h))).map
          (fun h => mkHistObservation s (startD + k) h doy o)))
    ⟨1, obs, 1⟩

/-- Fire causes (`fire_causes` list in `_generate_single_fire_record`). -/
inductive FireCause where
  | lightning | human | equipment | arson | unknown
  deriving DecidableEq

/-- Fire statuses (`fire_statuses` list). -/
inductive FireStatus where
  | contained | controlled | out
  deriving DecidableEq

/-- Oracle for the random draws of `create_fire_records` and
`_generate_single_fire_record`.  `ignite` is the outcome of the Bernoulli
trial `random.random() < daily_fire_risk` for a (day, station-index) pair;
the remaining draws are keyed by the fire counter.  (The risk product
`base_risk * seasonal_multiplier * weather_multiplier` only parametrises
that trial's probability and is absorbed into the trial's outcome.) -/
structure FireRand where
  ignite : ℕ → ℕ → Bool
  containRaw : ℕ → ℕ
  latRaw : ℕ → ℚ
  lonRaw : ℕ → ℚ
  sizeRaw : ℕ → ℚ
  causeRaw : ℕ → ℕ
  statusRaw : ℕ → ℕ
  areaRaw : ℕ → ℕ

/-- One generated fire row.  `fire_num` is the run-scoped counter the
source formats as `FIRE_%04d`; dates are integers (days); the jittered
`location` is `none` when the station's WKT string fails to parse (the
source raises `ValueError` there). -/
structure FireRecord where
  fire_num : ℕ
  fire_id : String
  fire_name : String
  location : Option (ℚ × ℚ)
  fire_date : Int
  containment_date : Int
  fire_size_hectares : ℚ
  cause : FireCause
  status : FireStatus
  country : String
  state_province : String
  city : String
  deriving DecidableEq

/-- `random.uniform` over `ℚ` for the location jitter (support `[a, b)`). -/
def uniformQ (a b : ℚ) (raw : ℚ) : ℚ :=
  a + (b - a) * Int.fract raw

/-- The `area_names` pool for fire naming. -/
def areaNames : List String :=
  ["Forest", "Hill", "Ridge", "Valley", "Creek", "Lake"]

/-- `WeatherGenerator._generate_single_fire_record`: containment is the
fire date plus `random.randint(1, 14)` days; size is
`max(0.1, lognormvariate(1, 1.5))` with the log-normal draw as oracle
value; cause, status and the name's area word are uniform choices. -/
def generate_single_fire_record (fireId : ℕ) (s : Station) (fireDate : Int)
    (o : FireRand) : FireRecord :=
  let containDays : ℕ := randintVal 1 14 (o.containRaw fireId)
  { fire_num := fireId
    fire_id := "FIRE_" ++ padNum 4 fireId
    fire_name := s.city ++ " " ++
      (areaNames.getD (o.areaRaw fireId % areaNames.length) "Forest") ++
      " Fire " ++ toString fireId
    location := (parseLocation s.location).map (fun p =>
      (p.1 + uniformQ (-(1/2)) (1/2) (o.lonRaw fireId),
       p.2 + uniformQ (-(1/2)) (1/2) (o.latRaw fireId)))
    fire_date := fireDate
    containment_date := fireDate + containDays
    fire_size_hectares := max (1/10) (o.sizeRaw fireId)
    cause := [FireCause.lightning, .human, .equipment, .arson, .unknown].getD
      (o.causeRaw fireId % 5) .unknown
    status := [FireStatus.contained, .controlled, .out].getD
      (o.statusRaw fireId % 3) .out
    country := "Germany"
    state_province := s.state_province
    city := s.city }

/-- The (day-index, station) pairs whose Bernoulli ignition trial fires,
in the source's day-outer / station-inner order. -/
def ignitionSlots (stations : List Station) (days : ℕ) (o : FireRand) :
    List (ℕ × Station) :=
  (List.range days).flatMap (fun k =>
    ((stations.enum).filter (fun p => o.ignite k p.1)).map (fun p => (k, p.2)))

/-- `WeatherGenerator.create_fire_records`: walk the date range
`[endD - days, endD)`, run the ignition trial per station-day, and build a
record per ignition with `fire_id_counter` starting at 1 and incrementing
per record (here: 1 plus the ignition's position). -/
def create_fire_records (stations : List Station) (days : ℕ) (endD : Int)
    (o : FireRand) : List FireRecord :=
  (ignitionSlots stations days o).enum.map (fun q =>
    generate_single_fire_record (q.1 + 1) q.2.2 (endD - days + q.2.1) o)

/-- The grouping key of `cleanup_duplicate_stations`'s SQL:
`GROUP BY station_name, location`. -/
def stationKey (s : Station) : String × String :=
  (s.station_name, s.location)

/-- All rows of a `(station_name, location)` group. -/
def keyGroup (rows : List Station) (k : String × String) : List Station :=
  rows.filter (fun r => stationKey r = k)

/-- The keys the SQL's `HAVING COUNT(*) > 1` retains. -/
def duplicateKeys (rows : List Station) : List (String × String) :=
  ((rows.map stationKey).dedup).filter (fun k => 1 < (keyGroup rows k).length)

/-- The SQL's `ORDER BY created_at DESC` comparison. -/
def createdDesc (a b : Station) : Prop :=
  b.created_at ≤ a.created_at

instance : DecidableRel createdDesc := fun a b =>
  inferInstanceAs (Decidable (b.created_at ≤ a.created_at))

instance : IsTotal Station createdDesc :=
  ⟨fun a b => le_total b.created_at a.created_at⟩

instance : IsTrans Station createdDesc :=
  ⟨fun _ _ _ h h2 => le_trans h2 h⟩

/-- `WeatherDataGenerator.cleanup_duplicate_stations`: per duplicate
`(station_name, location)` group, aggregate the ids in descending
`created_at` order, keep the first (`station_ids[0]`) and return the rest
(`station_ids[1:]`) as the deletion batch. -/
def cleanup_duplicate_stations (rows : List Station) : List String :=
  (duplicateKeys rows).flatMap (fun k =>
    ((List.insertionSort createdDesc (keyGroup rows k)).drop 1).map
      (fun r => r.station_id))

/-- A day-of-year map sending every date to day 1 (a winter day); concrete
calendar instantiations for evaluating the generators. -/
def testDoy : Int → ℕ := fun _ => 1

/-- Oracle fixing every random draw of the observation pipeline at its
baseline outcome (no skips, zero noise). -/
def trivialObsRand : ObsRand :=
  { skip := fun _ _ _ => false
    gauss := fun _ _ _ => 0
    condChoice := fun _ _ _ => 0
    jitterRaw := fun _ _ _ => 0
    humidityRaw := fun _ _ _ => 0
    pressureGauss := fun _ _ _ => 0
    windGauss := fun _ _ _ => 0
    windDirRaw := fun _ _ _ => 0
    precipRaw := fun _ _ _ => 0
    visibilityRaw := fun _ _ _ => 0
    uuid := fun _ _ _ => "uuid" }

/-- Like `trivialObsRand` but with an extreme Gaussian temperature draw,
exhibiting the unclamped historical path. -/
def hugeGaussObsRand : ObsRand :=
  { trivialObsRand with gauss := fun _ _ _ => 10000 }

/-- Fire oracle whose ignition trial always fires and whose draws are 0. -/
def trivialFireRand : FireRand :=
  { ignite := fun _ _ => true
    containRaw := fun _ => 0
    latRaw := fun _ => 0
    lonRaw := fun _ => 0
    sizeRaw := fun _ => 0
    causeRaw := fun _ => 0
    statusRaw := fun _ => 0
    areaRaw := fun _ => 0 }

/-- A well-formed active station for concrete runs. -/
def testStation : Station :=
  { station_id := "WS_BERLIN_TEMPELHOF_001"
    station_name := "Berlin Tempelhof"
    location := "POINT(13.4021 52.4675)"
    elevation_meters := 50
    country := "Germany"
    state_province := "Berlin"
    city := "Berlin"
    active := true
    created_at := 0
    updated_at := none }

/-- An active station whose location string cannot be parsed. -/
def brokenStation : Station :=
  { testStation with
    station_id := "WS_BROKEN_002"
    station_name := "Broken"
    location := "not a point" }

/-- Placeholder observation used as the `getD` default when picking a
concrete element out of a generated list. -/
noncomputable def dummyObservation : Observation :=
  { observation_id := ""
    station_id := ""
    date := 0
    hour := 0
    location := ""
    temperature_celsius := 0
    humidity_percent := 0
    pressure_hpa := 0
    wind_speed_ms := 0
    wind_direction_degrees := 0
    precipitation_mm := 0
    visibility_km := 0
    weather_condition := Condition.sunny }

/-- A concrete run of the main synthesizer: one station, one day, cadence 4. -/
noncomputable def sampleObsRun : List Observation :=
  generate_weather_observations [testStation] 1 4 0 testDoy trivialObsRand

/-- Its first emitted observation. -/
noncomputable def sampleObs : Observation :=
  sampleObsRun.getD 0 dummyObservation

/-- A concrete run of the historical path with the extreme Gaussian draw. -/
noncomputable def histRunCE : HistRun :=
  generate_historical_data 0 1 [testStation] 1 testDoy hugeGaussObsRand

/-- Its first emitted observation. -/
noncomputable def histObsCE : Observation :=
  histRunCE.observations.getD 0 dummyObservation

/-- The first fire record of a concrete always-igniting one-day run. -/
def fireRec0 : FireRecord :=
  generate_single_fire_record 1 testStation 0 trivialFireRand

/-- Duplicate-group member kept by dedupe (later `created_at`). -/
def dupNewer : Station :=
  { testStation with station_id := "WS_DUP_NEW", created_at := 9 }

/-- Duplicate-group member dropped by dedupe (earlier `created_at`). -/
def dupOlder : Station :=
  { testStation with station_id := "WS_DUP_OLD", created_at := 5 }

/-- A station whose `(name, location)` is unique in the fixture table. -/
def uniqStation : Station :=
  { testStation with
    station_id := "WS_UNIQ"
    station_name := "Munich Airport"
    location := "POINT(11.7861 48.3538)"
    created_at := 7 }

/-- Fixture table with one duplicate `(name, location)` group and one
unique station. -/
def dedupeRows : List Station :=
  [dupNewer, dupOlder, uniqStation]

/-- The rows that survive the source's
`DELETE FROM weather_stations WHERE station_id IN (...)` statement
(lines 428-434): every row whose `station_id` appears in the returned
deletion list is removed, id-aliased rows included. -/
def retainedRows (rows : List Station) : List Station :=
  rows.filter (fun r => !((cleanup_duplicate_stations rows).contains r.station_id))

/-- Duplicate row with the later `created_at`, sharing its deterministic
`station_id` with `dupSameIdOlder` — the state repeated non-reconciling
runs append. -/
def dupSameIdNewer : Station :=
  { testStation with station_id := "WS_SAME", created_at := 9 }

/-- Duplicate row with the earlier `created_at` and the same id. -/
def dupSameIdOlder : Station :=
  { testStation with station_id := "WS_SAME", created_at := 5 }

/-- Fixture table whose one duplicate `(name, location)` group consists of
two rows sharing one `station_id`. -/
def sameIdRows : List Station :=
  [dupSameIdNewer, dupSameIdOlder]

/-! Theorems. -/

theorem generate_stations_ids (templates : List StationTemplate) (num : ℕ)
    (now : Int) (o : StationRand) :
    (generate_weather_stations templates num now o).map (fun s => s.station_id)
      = ((templates.take num).enum).map (fun p => stationId p.2.name p.1) := by
  simp [generate_weather_stations, List.map_map]

/-- C1: station identity is a pure function of catalog name and index, so a
second generation run over an unchanged catalog reproduces the first run's
ids exactly, and partitioning it against the persisted id set of the first
run yields an empty insert batch with every station in the update batch. -/
theorem station_reconciliation_idempotent (templates : List StationTemplate)
    (num : ℕ) (now₁ now₂ : Int) (o₁ o₂ : StationRand) :
    (generate_weather_stations templates num now₂ o₂).map (fun s => s.station_id)
      = (generate_weather_stations templates num now₁ o₁).map (fun s => s.station_id)
    ∧ upsert_weather_stations (generate_weather_stations templates num now₂ o₂)
        ((generate_weather_stations templates num now₁ o₁).map (fun s => s.station_id))
      = ([], generate_weather_stations templates num now₂ o₂) := by
  have hids : (generate_weather_stations templates num now₂ o₂).map
        (fun s => s.station_id)
      = (generate_weather_stations templates num now₁ o₁).map
        (fun s => s.station_id) := by
    rw [generate_stations_ids, generate_stations_ids]
  refine ⟨hids, ?_⟩
  have hmem : ∀ s ∈ generate_weather_stations templates num now₂ o₂,
      ((generate_weather_stations templates num now₁ o₁).map
        (fun s => s.station_id)).contains s.station_id = true := by
    intro s hs
    rw [← hids]
    have : s.station_id ∈ (generate_weather_stations templates num now₂ o₂).map
        (fun s => s.station_id) := List.mem_map_of_mem _ hs
    exact List.elem_eq_true_of_mem this
  unfold upsert_weather_stations
  rw [Prod.mk.injEq]
  constructor
  · exact List.filter_eq_nil_iff.mpr
      (fun s hs => by simp only [hmem s hs, Bool.not_true]; decide)
  · exact List.filter_eq_self.mpr (fun s hs => hmem s hs)

/-- C2: for every day-of-year, the seasonal model's base temperature is
`10 + 15 * sin(2 * pi * (dayOfYear - 80) / 365)`, its season follows the
spec's bands ([80,172] spring, [173,266] summer, [267,355] autumn, else
winter — in particular day 172 is spring and day 173 is summer), and the
variance is 8 for spring/autumn and 5 otherwise. -/
theorem seasonal_model_spec (d : ℕ) :
    (get_seasonal_params d).base_temp
        = 10 + 15 * Real.sin (2 * Real.pi * ((d : ℝ) - 80) / 365)
    ∧ (get_seasonal_params d).season = specSeasonBands d
    ∧ (get_seasonal_params d).temp_variance
        = (if specSeasonBands d = Season.spring ∨ specSeasonBands d = Season.autumn
            then (8 : ℝ) else 5)
    ∧ (get_seasonal_params 172).season = Season.spring
    ∧ (get_seasonal_params 173).season = Season.summer := by
  refine ⟨rfl, rfl, rfl, ?_, ?_⟩
  · simp [get_seasonal_params]
  · simp [get_seasonal_params]

/-- C8: the historical-generation entry point rejects any range with
`start >= end` before the station query, the generation loop and the store
append: the run performs no station query, emits no observation and makes
no append call. -/
theorem historical_invalid_range_rejected (startD endD : Int)
    (storeStations : List Station) (opd : ℕ) (doy : Int → ℕ) (o : ObsRand)
    (h : startD ≥ endD) :
    generate_historical_data startD endD storeStations opd doy o
      = ⟨0, [], 0⟩ := by
  simp [generate_historical_data, h]

/-- Witness for C8 at the concrete invalid range `start = 5, end = 3`. -/
theorem historical_invalid_range_rejected_witness :
    (5 : Int) ≥ 3
    ∧ generate_historical_data 5 3 [testStation] 4 testDoy trivialObsRand
        = ⟨0, [], 0⟩ :=
  ⟨by norm_num,
   historical_invalid_range_rejected 5 3 [testStation] 4 testDoy trivialObsRand
     (by norm_num)⟩

theorem choiceFrom_mem (l : List Condition) (d : Condition) (raw : ℕ)
    (h : l ≠ []) : choiceFrom l d raw ∈ l := by
  have hlt : raw % l.length < l.length := Nat.mod_lt _ (List.length_pos.mpr h)
  rw [choiceFrom, List.getD_eq_getElem l d hlt]
  exact List.getElem_mem hlt

theorem condition_mem_enum (c : Condition) :
    c ∈ [Condition.sunny, .partly_cloudy, .cloudy, .rainy, .stormy, .snowy,
      .foggy] := by
  cases c <;> simp

/-- C4: the classifier always answers from the temperature-banded candidate
set — `temp < -5` gives one of snowy/cloudy/foggy, `[-5,5)` one of
cloudy/foggy/rainy/partly_cloudy, `[5,15)` one of
cloudy/rainy/partly_cloudy/sunny, `[15,25)` one of
sunny/partly_cloudy/cloudy, `>= 25` one of sunny/partly_cloudy — and in
particular always a member of the 7-member condition enumeration. -/
theorem condition_classifier_banded (temp : ℝ) (season : Season) (raw : ℕ) :
    (temp < -5 → generate_weather_condition temp season raw
      ∈ [Condition.snowy, .cloudy, .foggy])
    ∧ (-5 ≤ temp → temp < 5 → generate_weather_condition temp season raw
      ∈ [Condition.cloudy, .foggy, .rainy, .partly_cloudy])
    ∧ (5 ≤ temp → temp < 15 → generate_weather_condition temp season raw
      ∈ [Condition.cloudy, .rainy, .partly_cloudy, .sunny])
    ∧ (15 ≤ temp → temp < 25 → generate_weather_condition temp season raw
      ∈ [Condition.sunny, .partly_cloudy, .cloudy])
    ∧ (25 ≤ temp → generate_weather_condition temp season raw
      ∈ [Condition.sunny, .partly_cloudy])
    ∧ generate_weather_condition temp season raw
      ∈ [Condition.sunny, .partly_cloudy, .cloudy, .rainy, .stormy, .snowy,
        .foggy] := by
  refine ⟨?_, ?_, ?_, ?_, ?_, condition_mem_enum _⟩
  · intro h1
    rw [generate_weather_condition, if_pos h1]
    exact choiceFrom_mem _ _ _ (by simp)
  · intro h1 h2
    rw [generate_weather_condition, if_neg (by linarith), if_pos h2]
    exact choiceFrom_mem _ _ _ (by simp)
  · intro h1 h2
    rw [generate_weather_condition, if_neg (by linarith), if_neg (by linarith),
      if_pos h2]
    exact choiceFrom_mem _ _ _ (by simp)
  · intro h1 h2
    rw [generate_weather_condition, if_neg (by linarith), if_neg (by linarith),
      if_neg (by linarith), if_pos h2]
    exact choiceFrom_mem _ _ _ (by simp)
  · intro h1
    rw [generate_weather_condition, if_neg (by linarith), if_neg (by linarith),
      if_neg (by linarith), if_neg (by linarith)]
    exact choiceFrom_mem _ _ _ (by simp)

/-- Witness for C4 in the coldest band, at `temp = -10`. -/
theorem condition_classifier_banded_witness :
    (-10 : ℝ) < -5
    ∧ generate_weather_condition (-10) Season.winter 0
      ∈ [Condition.snowy, .cloudy, .foggy] :=
  ⟨by norm_num,
   (condition_classifier_banded (-10) Season.winter 0).1 (by norm_num)⟩

/-- C3 counterexample: with `cadencePerDay = 5` the hour step is
`24 // 5 = 4`, so a single station-day with no missing-data skips emits 6
observations — more than `cadencePerDay`. -/
theorem observation_cadence_counterexample :
    ¬ (stationDayObservations testStation 0 5 testDoy
        trivialObsRand).length ≤ 5 := by
  have h : (stationDayObservations testStation 0 5 testDoy
      trivialObsRand).length = 6 := rfl
  omega

/-- C3 as amended: per station-day the synthesizer emits at most as many
observations as there are hour slots; the slots are exactly the multiples
of the step `24 // cadencePerDay` below 24 (evenly spaced in `[0,24)`);
and only when `cadencePerDay` divides 24 is the slot count equal to
`cadencePerDay` (giving the original at-most-`cadencePerDay` bound). -/
theorem observation_cadence_amended (s : Station) (date : Int) (opd : ℕ)
    (doy : Int → ℕ) (o : ObsRand) (h1 : 0 < opd) (h2 : opd ≤ 24) :
    (stationDayObservations s date opd doy o).length ≤ (hourSlots opd).length
    ∧ hourSlots opd = (List.range 24).filter (fun h => h % (24 / opd) == 0)
    ∧ (opd ∣ 24 → (hourSlots opd).length = opd) := by
  refine ⟨?_, ?_, ?_⟩
  · rw [stationDayObservations, List.length_map]
    exact List.length_filter_le _ _
  · interval_cases opd <;> decide
  · interval_cases opd <;> decide

/-- Witness for C3's amended statement at the divisor cadence 4. -/
theorem observation_cadence_amended_witness :
    (0 < 4 ∧ 4 ≤ 24)
    ∧ (stationDayObservations testStation 0 4 testDoy trivialObsRand).length
        ≤ (hourSlots 4).length
    ∧ hourSlots 4 = (List.range 24).filter (fun h => h % (24 / 4) == 0)
    ∧ (4 ∣ 24 → (hourSlots 4).length = 4) :=
  ⟨by decide,
   observation_cadence_amended testStation 0 4 testDoy trivialObsRand
     (by decide) (by decide)⟩

/-- C5: every fire record's containment date exceeds its fire date — the
difference is an integer in [1,14] — and the run-scoped counter values
backing the fire ids are pairwise distinct. -/
theorem fire_records_dates_and_ids (stations : List Station) (days : ℕ)
    (endD : Int) (o : FireRand) :
    (∀ rec ∈ create_fire_records stations days endD o,
        rec.fire_date < rec.containment_date
        ∧ ∃ d : ℕ, 1 ≤ d ∧ d ≤ 14
            ∧ rec.containment_date = rec.fire_date + d)
    ∧ ((create_fire_records stations days endD o).map
        (fun r => r.fire_num)).Nodup := by
  constructor
  · intro rec hmem
    rw [create_fire_records, List.mem_map] at hmem
    obtain ⟨q, _, hq⟩ := hmem
    subst hq
    refine ⟨?_, randintVal 1 14 (o.containRaw (q.1 + 1)), ?_, ?_, rfl⟩
    · have h14 : randintVal 1 14 (o.containRaw (q.1 + 1)) ≥ 1 :=
        Nat.le_add_right 1 _
      simp only [generate_single_fire_record]
      omega
    · exact Nat.le_add_right 1 _
    · have : o.containRaw (q.1 + 1) % 14 < 14 := Nat.mod_lt _ (by norm_num)
      unfold randintVal
      omega
  · have h1 : (create_fire_records stations days endD o).map (fun r => r.fire_num)
        = ((ignitionSlots stations days o).enum.map Prod.fst).map (· + 1) := by
      simp only [create_fire_records, List.map_map]
      rfl
    rw [h1]
    exact (List.nodup_enum_map_fst _).map (fun a b h => by omega)

theorem fireRec0_mem :
    fireRec0 ∈ create_fire_records [testStation] 1 1 trivialFireRand :=
  (show create_fire_records [testStation] 1 1 trivialFireRand = [fireRec0]
    from rfl) ▸ List.mem_singleton_self fireRec0

/-- Witness for C5 on an always-igniting one-station one-day run. -/
theorem fire_records_dates_and_ids_witness :
    fireRec0 ∈ create_fire_records [testStation] 1 1 trivialFireRand
    ∧ (fireRec0.fire_date < fireRec0.containment_date
        ∧ ∃ d : ℕ, 1 ≤ d ∧ d ≤ 14
            ∧ fireRec0.containment_date = fireRec0.fire_date + d)
    ∧ ((create_fire_records [testStation] 1 1 trivialFireRand).map
        (fun r => r.fire_num)).Nodup :=
  ⟨fireRec0_mem,
   (fire_records_dates_and_ids [testStation] 1 1 trivialFireRand).1 fireRec0
     fireRec0_mem,
   (fire_records_dates_and_ids [testStation] 1 1 trivialFireRand).2⟩

/-- C7: an unparseable station location makes the synthesizer fall back to
the documented default coordinates `lon=10.0, lat=52.0`, and generation
still proceeds through that station (if active) and every remaining
station: the malformed location never raises or truncates the run. -/
theorem malformed_location_defaults (s : Station) (rest : List Station)
    (days opd : ℕ) (now : Int) (doy : Int → ℕ) (o : ObsRand)
    (h : parseLocation s.location = none) :
    stationCoords s = (10, 52)
    ∧ generate_weather_observations (s :: rest) days opd now doy o
      = (if s.active then
          (List.range days).flatMap (fun k =>
            stationDayObservations s (now - days + k) opd doy o)
        else [])
        ++ generate_weather_observations rest days opd now doy o := by
  constructor
  · simp [stationCoords, h]
  · rcases ha : s.active with _ | _ <;>
      simp [generate_weather_observations, List.filter_cons, ha]

/-- Witness for C7: a concrete station with garbage coordinates still gets
the default coordinate pair. -/
theorem malformed_location_defaults_witness :
    parseLocation brokenStation.location = none
    ∧ stationCoords brokenStation = (10, 52) :=
  ⟨by decide,
   (malformed_location_defaults brokenStation [testStation] 1 4 0 testDoy
     trivialObsRand (by decide)).1⟩

/-- C10: every emitted observation carries its originating station's
location string verbatim — the parsed coordinates (and the parse-failure
defaults) flow into no emitted field — together with that station's id,
and only active stations emit. -/
theorem observation_location_verbatim (stations : List Station)
    (days opd : ℕ) (now : Int) (doy : Int → ℕ) (o : ObsRand)
    (obs : Observation)
    (h : obs ∈ generate_weather_observations stations days opd now doy o) :
    ∃ s ∈ stations, s.active = true ∧ obs.station_id = s.station_id
      ∧ obs.location = s.location := by
  simp only [generate_weather_observations, stationDayObservations,
    List.mem_flatMap, List.mem_filter, List.mem_map, List.mem_range] at h
  obtain ⟨s, ⟨hs, hact⟩, k, _, hobs⟩ := h
  obtain ⟨hh, ⟨_, _⟩, hmk⟩ := hobs
  refine ⟨s, hs, hact, ?_, ?_⟩
  · rw [← hmk]
    rfl
  · rw [← hmk]
    rfl

/-- Witness for C10 on a concrete one-station run. -/
theorem observation_location_verbatim_witness :
    sampleObs ∈ sampleObsRun
    ∧ ∃ s ∈ [testStation], s.active = true
        ∧ sampleObs.station_id = s.station_id
        ∧ sampleObs.location = s.location := by
  have hlen : 0 < sampleObsRun.length := by
    rw [show sampleObsRun.length = 4 from rfl]
    norm_num
  have hmem : sampleObs ∈ sampleObsRun := by
    rw [show sampleObs = sampleObsRun.getD 0 dummyObservation from rfl,
      List.getD_eq_getElem sampleObsRun dummyObservation hlen]
    exact List.getElem_mem hlen
  exact ⟨hmem,
    observation_location_verbatim [testStation] 1 4 0 testDoy trivialObsRand
      sampleObs hmem⟩

theorem uniformR_lb (a b r : ℝ) (h : a ≤ b) : a ≤ uniformR a b r := by
  have h1 : 0 ≤ (b - a) * Int.fract r :=
    mul_nonneg (by linarith) (Int.fract_nonneg r)
  unfold uniformR
  linarith

theorem uniformR_ub (a b r : ℝ) (h : a ≤ b) : uniformR a b r ≤ b := by
  have h1 : (b - a) * Int.fract r ≤ b - a :=
    mul_le_of_le_one_right (by linarith) (le_of_lt (Int.fract_lt_one r))
  unfold uniformR
  linarith

theorem round10_ge (n : ℤ) (x : ℝ) (h : (n : ℝ) ≤ x) : (n : ℝ) ≤ round10 x := by
  have h2 : 10 * n ≤ round (10 * x) := by
    rw [round_eq]
    calc 10 * n = ⌊((10 * n : ℤ) : ℝ) + 1 / 2⌋ := by
          rw [add_comm, Int.floor_add_int]
          norm_num
      _ ≤ ⌊10 * x + 1 / 2⌋ := by
          apply Int.floor_mono
          push_cast
          linarith
  unfold round10
  have h3 : ((10 * n : ℤ) : ℝ) ≤ ((round (10 * x) : ℤ) : ℝ) := by
    exact_mod_cast h2
  push_cast at h3
  linarith

theorem round10_le (n : ℤ) (x : ℝ) (h : x ≤ (n : ℝ)) : round10 x ≤ (n : ℝ) := by
  have h2 : round (10 * x) ≤ 10 * n := by
    rw [round_eq]
    calc ⌊10 * x + 1 / 2⌋ ≤ ⌊((10 * n : ℤ) : ℝ) + 1 / 2⌋ := by
          apply Int.floor_mono
          push_cast
          linarith
      _ = 10 * n := by
          rw [add_comm, Int.floor_add_int]
          norm_num
  unfold round10
  have h3 : ((round (10 * x) : ℤ) : ℝ) ≤ ((10 * n : ℤ) : ℝ) := by
    exact_mod_cast h2
  push_cast at h3
  linarith

theorem condition_lo_le_hi (c : Condition) :
    (weather_conditions c).temp_lo ≤ (weather_conditions c).temp_hi := by
  cases c <;> decide

theorem adjustTemp_bounds (t : ℝ) (c : Condition) (jraw : ℝ) :
    ((weather_conditions c).temp_lo : ℝ) - 2 ≤ adjustTemp t c jraw
    ∧ adjustTemp t c jraw ≤ ((weather_conditions c).temp_hi : ℝ) + 2 := by
  have hlohi : ((weather_conditions c).temp_lo : ℝ)
      ≤ ((weather_conditions c).temp_hi : ℝ) := by
    exact_mod_cast condition_lo_le_hi c
  have hj1 : (-2 : ℝ) ≤ uniformR (-2) 2 jraw := uniformR_lb _ _ _ (by norm_num)
  have hj2 : uniformR (-2) 2 jraw ≤ 2 := uniformR_ub _ _ _ (by norm_num)
  unfold adjustTemp
  split_ifs with h1 h2 <;> constructor <;> linarith

theorem round10_adjustTemp_bounds (t : ℝ) (c : Condition) (jraw : ℝ) :
    ((weather_conditions c).temp_lo : ℝ) - 2 ≤ round10 (adjustTemp t c jraw)
    ∧ round10 (adjustTemp t c jraw)
      ≤ ((weather_conditions c).temp_hi : ℝ) + 2 := by
  have hb := adjustTemp_bounds t c jraw
  constructor
  · have h1 := round10_ge ((weather_conditions c).temp_lo - 2)
      (adjustTemp t c jraw) (by push_cast; linarith [hb.1])
    calc ((weather_conditions c).temp_lo : ℝ) - 2
        = (((weather_conditions c).temp_lo - 2 : ℤ) : ℝ) := by push_cast; ring
      _ ≤ round10 (adjustTemp t c jraw) := h1
  · have h1 := round10_le ((weather_conditions c).temp_hi + 2)
      (adjustTemp t c jraw) (by push_cast; linarith [hb.2])
    calc round10 (adjustTemp t c jraw)
        ≤ (((weather_conditions c).temp_hi + 2 : ℤ) : ℝ) := h1
      _ = ((weather_conditions c).temp_hi : ℝ) + 2 := by push_cast; ring

/-- C6 as amended: in the primary synthesizer
`generate_weather_observations`, a sampled temperature outside the
classified condition's `temp_range` is clamped to the violated bound plus
uniform jitter in [-2,2], so every emitted temperature lies within
`[temp_range.min - 2, temp_range.max + 2]` of its condition.  (The
historical-range generator omits this clamping; see the
counterexample.) -/
theorem observation_temperature_clamped (stations : List Station)
    (days opd : ℕ) (now : Int) (doy : Int → ℕ) (o : ObsRand)
    (obs : Observation)
    (h : obs ∈ generate_weather_observations stations days opd now doy o) :
    ((weather_conditions obs.weather_condition).temp_lo : ℝ) - 2
        ≤ obs.temperature_celsius
    ∧ obs.temperature_celsius
        ≤ ((weather_conditions obs.weather_condition).temp_hi : ℝ) + 2 := by
  simp only [generate_weather_observations, stationDayObservations,
    List.mem_flatMap, List.mem_filter, List.mem_map, List.mem_range] at h
  obtain ⟨s, ⟨_, _⟩, k, _, hh, _, hmk⟩ := h
  rw [← hmk]
  exact round10_adjustTemp_bounds (rawTemp s (now - days + k) hh doy o)
    (obsCondition s (now - days + k) hh doy o)
    (o.jitterRaw s.station_id (now - days + k) hh)

/-- Witness for C6's amended statement on a concrete one-station run. -/
theorem observation_temperature_clamped_witness :
    sampleObs ∈ sampleObsRun
    ∧ ((weather_conditions sampleObs.weather_condition).temp_lo : ℝ) - 2
        ≤ sampleObs.temperature_celsius
    ∧ sampleObs.temperature_celsius
        ≤ ((weather_conditions sampleObs.weather_condition).temp_hi : ℝ) + 2 := by
  have hlen : 0 < sampleObsRun.length := by
    rw [show sampleObsRun.length = 4 from rfl]
    norm_num
  have hmem : sampleObs ∈ sampleObsRun := by
    rw [show sampleObs = sampleObsRun.getD 0 dummyObservation from rfl,
      List.getD_eq_getElem sampleObsRun dummyObservation hlen]
    exact List.getElem_mem hlen
  exact ⟨hmem,
    observation_temperature_clamped [testStation] 1 4 0 testDoy trivialObsRand
      sampleObs hmem⟩

theorem histObsCE_rawTemp_lb :
    (49000 : ℝ) ≤ rawTemp testStation 0 0 testDoy hugeGaussObsRand := by
  have h1 := Real.neg_one_le_sin (2 * Real.pi * (((1 : ℕ) : ℝ) - 80) / 365)
  have h2 := Real.neg_one_le_sin (Real.pi * (((0 : ℕ) : ℝ) - 6) / 12)
  have hT : rawTemp testStation 0 0 testDoy hugeGaussObsRand
      = 10 + 15 * Real.sin (2 * Real.pi * (((1 : ℕ) : ℝ) - 80) / 365)
        - ((50 : ℚ) : ℝ) / 1000 * 6.5
        + 5 * Real.sin (Real.pi * (((0 : ℕ) : ℝ) - 6) / 12)
        + 5 * 10000 := rfl
  rw [hT]
  push_cast
  linarith

/-- C6 counterexample: the historical-range generator
(`generate_historical_data`) applies no clamping, so with a large Gaussian
temperature draw it emits an observation whose temperature exceeds its
condition's `temp_range.max + 2` — the claimed bound fails on this
emitted observation. -/
theorem observation_temperature_unclamped_counterexample :
    histObsCE ∈ histRunCE.observations
    ∧ ¬ (histObsCE.temperature_celsius
        ≤ ((weather_conditions histObsCE.weather_condition).temp_hi : ℝ) + 2) := by
  constructor
  · rw [show histRunCE.observations = [histObsCE] from rfl]
    exact List.mem_singleton_self _
  · have hlb := histObsCE_rawTemp_lb
    have hcond : obsCondition testStation 0 0 testDoy hugeGaussObsRand
        = Condition.sunny := by
      simp only [obsCondition, generate_weather_condition]
      split_ifs with h1 h2 h3 h4
      · linarith
      · linarith
      · linarith
      · linarith
      · rfl
    intro hle
    rw [show histObsCE = mkHistObservation testStation 0 0 testDoy hugeGaussObsRand
      from rfl] at hle
    have hle2 : round10 (rawTemp testStation 0 0 testDoy hugeGaussObsRand)
        ≤ ((weather_conditions (obsCondition testStation 0 0 testDoy
            hugeGaussObsRand)).temp_hi : ℝ) + 2 := hle
    rw [hcond] at hle2
    have h37 : ((weather_conditions Condition.sunny).temp_hi : ℝ) + 2 = 37 := by
      norm_num [weather_conditions]
    rw [h37] at hle2
    have hge := round10_ge 49000
      (rawTemp testStation 0 0 testDoy hugeGaussObsRand) (by push_cast; linarith)
    push_cast at hge
    linarith

theorem keyGroup_key {rows : List Station} {k : String × String} {x : Station}
    (h : x ∈ keyGroup rows k) : x ∈ rows ∧ stationKey x = k := by
  simpa [keyGroup] using h

theorem duplicateKeys_len {rows : List Station} {k : String × String}
    (h : k ∈ duplicateKeys rows) : 1 < (keyGroup rows k).length := by
  rw [duplicateKeys, List.mem_filter] at h
  simpa using h.2

theorem deletions_source {rows : List Station} {i : String}
    (h : i ∈ cleanup_duplicate_stations rows) :
    ∃ k ∈ duplicateKeys rows, ∃ x ∈ (List.insertionSort createdDesc
      (keyGroup rows k)).drop 1, x.station_id = i := by
  rw [cleanup_duplicate_stations, List.mem_flatMap] at h
  obtain ⟨k, hk, h2⟩ := h
  rw [List.mem_map] at h2
  obtain ⟨x, hx, hxi⟩ := h2
  exact ⟨k, hk, x, hx, hxi⟩

/-- C9 as amended: when the per-row `station_id`s are pairwise distinct,
dedupe retains per duplicate `(name, location)` group exactly one
survivor — a group member with the maximum `created_at`, whose id is not
returned — and returns every other member's id for deletion; rows whose
`(name, location)` is unique are never returned for deletion.  (Without
that restriction the claim fails: duplicate rows sharing one id make the
returned id list match the survivor as well — see the counterexample.) -/
theorem dedupe_spec (rows : List Station)
    (hids : (rows.map (fun r => r.station_id)).Nodup) :
    (∀ k ∈ duplicateKeys rows,
        ∃ surv ∈ keyGroup rows k,
          (∀ x ∈ keyGroup rows k, x.created_at ≤ surv.created_at)
          ∧ surv.station_id ∉ cleanup_duplicate_stations rows
          ∧ (∀ x ∈ keyGroup rows k, x ≠ surv →
              x.station_id ∈ cleanup_duplicate_stations rows))
    ∧ (∀ r ∈ rows, (keyGroup rows (stationKey r)).length ≤ 1 →
        r.station_id ∉ cleanup_duplicate_stations rows) := by
  have hrows : rows.Nodup := hids.of_map _
  have hinj := List.inj_on_of_nodup_map hids
  constructor
  · intro k hk
    have hklen := duplicateKeys_len hk
    have hperm := List.perm_insertionSort createdDesc (keyGroup rows k)
    have hsorted := List.sorted_insertionSort createdDesc (keyGroup rows k)
    have hne : List.insertionSort createdDesc (keyGroup rows k) ≠ [] := by
      intro hnil
      have hl := List.length_insertionSort createdDesc (keyGroup rows k)
      rw [hnil] at hl
      simp at hl
      omega
    obtain ⟨surv, rest, hcons⟩ := List.exists_cons_of_ne_nil hne
    have hsurv_sort : surv ∈ List.insertionSort createdDesc (keyGroup rows k) := by
      rw [hcons]
      exact List.mem_cons_self _ _
    have hsurv_mem : surv ∈ keyGroup rows k := hperm.mem_iff.mp hsurv_sort
    have hgnodup : (keyGroup rows k).Nodup := hrows.filter _
    have hsortnodup : (List.insertionSort createdDesc (keyGroup rows k)).Nodup :=
      hperm.nodup_iff.mpr hgnodup
    have hsurv_notin_rest : surv ∉ rest := by
      rw [hcons] at hsortnodup
      exact (List.nodup_cons.mp hsortnodup).1
    refine ⟨surv, hsurv_mem, ?_, ?_, ?_⟩
    · intro x hx
      have hx_sort : x ∈ List.insertionSort createdDesc (keyGroup rows k) :=
        hperm.mem_iff.mpr hx
      rw [hcons] at hx_sort
      rcases List.mem_cons.mp hx_sort with hEq | hrest
      · rw [hEq]
      · rw [hcons] at hsorted
        exact List.rel_of_sorted_cons hsorted x hrest
    · intro hdel
      obtain ⟨k2, hk2, x, hx_drop, hx_id⟩ := deletions_source hdel
      have hx_sort := List.mem_of_mem_drop hx_drop
      have hx_group : x ∈ keyGroup rows k2 :=
        (List.perm_insertionSort createdDesc (keyGroup rows k2)).mem_iff.mp hx_sort
      have hx_rows := (keyGroup_key hx_group).1
      have hsurv_rows := (keyGroup_key hsurv_mem).1
      have hxs : x = surv := hinj hx_rows hsurv_rows hx_id
      have hkk : k2 = k := by
        rw [← (keyGroup_key hx_group).2, hxs, (keyGroup_key hsurv_mem).2]
      rw [hxs, hkk, hcons] at hx_drop
      simp at hx_drop
      exact hsurv_notin_rest hx_drop
    · intro x hx hxne
      have hx_sort : x ∈ List.insertionSort createdDesc (keyGroup rows k) :=
        hperm.mem_iff.mpr hx
      rw [hcons] at hx_sort
      rcases List.mem_cons.mp hx_sort with hEq | hrest
      · exact absurd hEq hxne
      · rw [cleanup_duplicate_stations, List.mem_flatMap]
        refine ⟨k, hk, ?_⟩
        rw [List.mem_map]
        refine ⟨x, ?_, rfl⟩
        rw [hcons]
        simpa using hrest
  · intro r hr hlen hdel
    obtain ⟨k2, hk2, x, hx_drop, hx_id⟩ := deletions_source hdel
    have hx_sort := List.mem_of_mem_drop hx_drop
    have hx_group : x ∈ keyGroup rows k2 :=
      (List.perm_insertionSort createdDesc (keyGroup rows k2)).mem_iff.mp hx_sort
    have hx_rows := (keyGroup_key hx_group).1
    have hxr : x = r := hinj hx_rows hr hx_id
    have hkk : stationKey r = k2 := by
      rw [← hxr]
      exact (keyGroup_key hx_group).2
    have hlen2 := duplicateKeys_len hk2
    rw [← hkk] at hlen2
    omega

/-- Witness for C9 on a concrete table with one duplicate pair and one
unique station. -/
theorem dedupe_spec_witness :
    (dedupeRows.map (fun r => r.station_id)).Nodup
    ∧ ((∀ k ∈ duplicateKeys dedupeRows,
        ∃ surv ∈ keyGroup dedupeRows k,
          (∀ x ∈ keyGroup dedupeRows k, x.created_at ≤ surv.created_at)
          ∧ surv.station_id ∉ cleanup_duplicate_stations dedupeRows
          ∧ (∀ x ∈ keyGroup dedupeRows k, x ≠ surv →
              x.station_id ∈ cleanup_duplicate_stations dedupeRows))
      ∧ (∀ r ∈ dedupeRows, (keyGroup dedupeRows (stationKey r)).length ≤ 1 →
          r.station_id ∉ cleanup_duplicate_stations dedupeRows)) :=
  ⟨by decide, dedupe_spec dedupeRows (by decide)⟩

/-- C9 counterexample: in the duplicate state repeated non-reconciling
runs produce — two rows of one `(name, location)` group sharing one
deterministic `station_id` — the id of the maximum-`created_at` member is
itself in the returned deletion list, so the id-based
`DELETE ... WHERE station_id IN (...)` removes every row of the group and
retains no survivor at all, falsifying the claim on this input. -/
theorem dedupe_shared_id_counterexample :
    keyGroup sameIdRows (stationKey dupSameIdNewer)
        = [dupSameIdNewer, dupSameIdOlder]
    ∧ dupSameIdOlder.created_at < dupSameIdNewer.created_at
    ∧ dupSameIdNewer.station_id ∈ cleanup_duplicate_stations sameIdRows
    ∧ retainedRows sameIdRows = [] := by
  decide

end WeatherModel
